import Mathlib

/-!
Verification of the navarchos node-rollout orchestrator against its design
specification.  The development shallowly embeds the status-merge state
machine of `pkg/controller/noderollout/status/status.go`, the admission
gate `shouldProcess` and the pod classifier `processPods` of the node
replacement handler, and proves the specified properties about them.

Modelling conventions:
* Go `nil` slices and `nil` pointers become `Option`; an assigned empty
  slice is `some []`, which is distinct from `none` exactly as a non-nil
  empty Go slice is distinct from a nil one.
* Go `error` values are `Option String`, the string being `err.Error()`.
* `metav1.Time` values are abstracted to `Nat`; the wall-clock instant a
  condition is built at is threaded in as an explicit `now` argument.
* Fallible Go functions return `Except String _`; the merge chain of
  `UpdateStatus` short-circuits on the first error, exactly as the Go
  code returns early.
-/

namespace Navarchos

/-- The corev1.ConditionStatus string type, restricted to the values the
system uses. -/
inductive ConditionStatus where
  | conditionTrue
  | conditionFalse
  | conditionUnknown
deriving DecidableEq, Repr

/-- The NodeRolloutPhase string type. -/
inductive NodeRolloutPhase where
  | new
  | inProgress
  | completed
  | failed
deriving DecidableEq, Repr

/-- The NodeRolloutConditionType value ReplacementsCreatedType. -/
def ReplacementsCreatedType : String := "ReplacementsCreated"

/-- The NodeRolloutConditionType value ReplacementsInProgressType. -/
def ReplacementsInProgressType : String := "ReplacementsInProgress"

/-- navarchosv1alpha1.NodeRolloutCondition: a typed, timestamped status
annotation.  Condition types and reasons are strings in the Go API. -/
structure NodeRolloutCondition where
  condType : String
  status : ConditionStatus
  lastUpdateTime : Nat
  lastTransitionTime : Nat
  reason : String
  message : String
deriving DecidableEq, Repr

/-- navarchosv1alpha1.NodeRolloutStatus.  Slice-valued fields are
`Option (List String)` so that Go's nil/non-nil distinction (which the
immutability checks test with `!= nil`) is preserved. -/
structure NodeRolloutStatus where
  phase : NodeRolloutPhase
  replacementsCreated : Option (List String)
  replacementsCreatedCount : Nat
  replacementsCompleted : Option (List String)
  replacementsCompletedCount : Nat
  replacementsFailed : Option (List String)
  replacementsFailedCount : Nat
  completionTimestamp : Option Nat
  conditions : List NodeRolloutCondition
deriving DecidableEq, Repr

/-- A NodeRollout instance as seen by `UpdateStatus`: its identifying
metadata (abstracted to the name) plus its status. -/
structure NodeRollout where
  name : String
  status : NodeRolloutStatus
deriving DecidableEq, Repr

/-- status.Result: the partial outcome of one reconciliation pass, as the
fields are read by status.go.  Pointer fields are `Option`; the two error
fields carry the error's text. -/
structure Result where
  phase : Option NodeRolloutPhase
  replacementsCreated : Option (List String)
  replacementsCompleted : Option (List String)
  completionTimestamp : Option Nat
  replacementsCreatedError : Option String
  replacementsCreatedReason : String
  replacementsInProgressError : Option String
  replacementsInProgressReason : String
deriving DecidableEq, Repr

/-- setPhase sets the phase when it is set in the Result. -/
def setPhase (status : NodeRolloutStatus) (result : Result) : NodeRolloutStatus :=
  match result.phase with
  | some p => { status with phase := p }
  | none => status

/-- setReplacementsCreated sets the ReplacementsCreated, provided it has
not been set before; a second attempt is an immutability error. -/
def setReplacementsCreated (status : NodeRolloutStatus) (result : Result) :
    Except String NodeRolloutStatus :=
  match status.replacementsCreated, result.replacementsCreated with
  | some _, some _ =>
      .error "cannot update ReplacementsCreated, field is immutable once set"
  | none, some v =>
      .ok { status with replacementsCreated := some v, replacementsCreatedCount := v.length }
  | _, none => .ok status

/-- appendIfMissingElement appends a string to a list only if it is not
already present. -/
def appendIfMissingElement (slice : List String) (i : String) : List String :=
  if slice.any (fun ele => decide (ele = i)) then slice else slice ++ [i]

/-- appendIfMissingStr appends the elements of the second list to the
first, dropping elements already present. -/
def appendIfMissingStr (slice : List String) (str : List String) : List String :=
  str.foldl (fun merged ele => appendIfMissingElement merged ele) slice

/-- setReplacementsCompleted: if ReplacementsCompleted has not been set
before, the result value is stored; if it has, the two lists are merged
with `appendIfMissingStr` and the count recomputed. -/
def setReplacementsCompleted (status : NodeRolloutStatus) (result : Result) :
    NodeRolloutStatus :=
  match status.replacementsCompleted, result.replacementsCompleted with
  | some existing, some incoming =>
      let merged := appendIfMissingStr existing incoming
      { status with replacementsCompleted := some merged,
                    replacementsCompletedCount := merged.length }
  | none, some incoming =>
      { status with replacementsCompleted := some incoming,
                    replacementsCompletedCount := incoming.length }
  | _, none => status

/-- setCompletionTimestamp sets the CompletionTimestamp field once; a
second attempt is an immutability error. -/
def setCompletionTimestamp (status : NodeRolloutStatus) (result : Result) :
    Except String NodeRolloutStatus :=
  match status.completionTimestamp, result.completionTimestamp with
  | some _, some _ =>
      .error "cannot update CompletionTimestamp, field is immutable once set"
  | none, some t => .ok { status with completionTimestamp := some t }
  | _, none => .ok status

/-- newNodeRolloutCondition creates a new NodeRolloutCondition with both
timestamps taken at the current instant. -/
def newNodeRolloutCondition (now : Nat) (condType : String) (status : ConditionStatus)
    (reason : String) (message : String) : NodeRolloutCondition :=
  { condType := condType
    status := status
    lastUpdateTime := now
    lastTransitionTime := now
    reason := reason
    message := message }

/-- getNodeRolloutCondition returns the first condition with the provided
type. -/
def getNodeRolloutCondition (status : NodeRolloutStatus) (condType : String) :
    Option NodeRolloutCondition :=
  status.conditions.find? (fun c => decide (c.condType = condType))

/-- filterOutCondition returns the conditions without those of the
provided type. -/
def filterOutCondition (conditions : List NodeRolloutCondition) (condType : String) :
    List NodeRolloutCondition :=
  conditions.filter (fun c => decide (c.condType ≠ condType))

/-- setNodeRolloutCondition updates the status to include the provided
condition.  If a condition of the same type with the same status and
reason exists nothing changes; if only the status is unchanged the old
lastTransitionTime is kept; the old conditions of the type are filtered
out and the new condition appended. -/
def setNodeRolloutCondition (status : NodeRolloutStatus)
    (condition : NodeRolloutCondition) : NodeRolloutStatus :=
  match getNodeRolloutCondition status condition.condType with
  | some currentCond =>
      if currentCond.status = condition.status ∧ currentCond.reason = condition.reason then
        status
      else
        let condition :=
          if currentCond.status = condition.status then
            { condition with lastTransitionTime := currentCond.lastTransitionTime }
          else condition
        { status with
            conditions := filterOutCondition status.conditions condition.condType ++ [condition] }
  | none =>
      { status with
          conditions := filterOutCondition status.conditions condition.condType ++ [condition] }

/-- setInProgressCondition: requires the in-progress reason whenever the
in-progress error is set; when a reason is present it applies a
ReplacementsInProgress condition, true by default, false when an error
accompanies it or the reason is "ReplacementsCompleted". -/
def setInProgressCondition (now : Nat) (status : NodeRolloutStatus) (result : Result) :
    Except String NodeRolloutStatus :=
  if result.replacementsInProgressError.isSome ∧ result.replacementsInProgressReason = "" then
    .error "if ReplacementsInProgressError is set, ReplacementsInProgressReason must also be set"
  else if result.replacementsInProgressReason ≠ "" then
    let condition := newNodeRolloutCondition now ReplacementsInProgressType
      ConditionStatus.conditionTrue result.replacementsInProgressReason ""
    let condition :=
      match result.replacementsInProgressError with
      | some e => { condition with status := ConditionStatus.conditionFalse, message := e }
      | none => condition
    let condition :=
      if result.replacementsInProgressReason = "ReplacementsCompleted" then
        { condition with status := ConditionStatus.conditionFalse }
      else condition
    .ok (setNodeRolloutCondition status condition)
  else
    .ok status

/-- setCreatedCondition: requires the created reason whenever the created
error is set; when a reason is present it applies a ReplacementsCreated
condition, true by default, false with the error text as message when an
error accompanies it. -/
def setCreatedCondition (now : Nat) (status : NodeRolloutStatus) (result : Result) :
    Except String NodeRolloutStatus :=
  if result.replacementsCreatedError.isSome ∧ result.replacementsCreatedReason = "" then
    .error "if ReplacementsCreatedError is set, ReplacementsCreatedReason must also be set"
  else if result.replacementsCreatedReason ≠ "" then
    let condition := newNodeRolloutCondition now ReplacementsCreatedType
      ConditionStatus.conditionTrue result.replacementsCreatedReason ""
    let condition :=
      match result.replacementsCreatedError with
      | some e => { condition with status := ConditionStatus.conditionFalse, message := e }
      | none => condition
    .ok (setNodeRolloutCondition status condition)
  else
    .ok status

/-- applyResult is the pure merge performed by UpdateStatus: it chains
the field setters in source order, returning the first error. -/
def applyResult (now : Nat) (status0 : NodeRolloutStatus) (result : Result) :
    Except String NodeRolloutStatus :=
  match setReplacementsCreated (setPhase status0 result) result with
  | .error e => .error e
  | .ok status2 =>
      match setCompletionTimestamp (setReplacementsCompleted status2 result) result with
      | .error e => .error e
      | .ok status4 =>
          match setCreatedCondition now status4 result with
          | .error e => .error e
          | .ok status5 =>
              match setInProgressCondition now status5 result with
              | .error e => .error e
              | .ok status6 => .ok status6

/-- The observable outcome of one UpdateStatus call: the object the
caller's pointer refers to afterwards, the object handed to the store's
update call when one was issued, and the returned error. -/
structure UpdateOutcome where
  instanceAfter : NodeRollout
  write : Option NodeRollout
  error : Option String
deriving DecidableEq, Repr

/-- UpdateStatus merges the Result into a local copy of the instance's
status and, when the merged status differs from the stored one by deep
equality, issues a store update carrying a deep copy of the instance
with the merged status.  `storeErr` models the store's answer to that
update call (`none` = success); a failure is wrapped with the context
"error updating status: ".  The Go code copies `instance.Status` by
value, merges into the copy, and writes through `instance.DeepCopy()`,
so the caller's instance is returned unchanged in every branch. -/
def UpdateStatus (now : Nat) (storeErr : Option String) (inst : NodeRollout)
    (result : Result) : UpdateOutcome :=
  match applyResult now inst.status result with
  | .error e => { instanceAfter := inst, write := none, error := some e }
  | .ok status =>
      if status = inst.status then
        { instanceAfter := inst, write := none, error := none }
      else
        let copy := { inst with status := status }
        match storeErr with
        | some e =>
            { instanceAfter := inst, write := some copy,
              error := some ("error updating status: " ++ e) }
        | none => { instanceAfter := inst, write := some copy, error := none }

/-- The ReplacementPhase of a NodeReplacement. -/
inductive ReplacementPhase where
  | new
  | inProgress
  | completed
  | failed
deriving DecidableEq, Repr

/-- A NodeReplacement as read by the admission gate: its name, its spec
priority and its status phase. -/
structure NodeReplacement where
  name : String
  priority : Int
  phase : ReplacementPhase
deriving DecidableEq, Repr

/-- Modelled from the spec: the replacements other than the candidate
itself, the candidate being identified by name (self excluded from the
admission evaluation). -/
def otherReplacements (candidate : NodeReplacement)
    (replacements : List NodeReplacement) : List NodeReplacement :=
  replacements.filter (fun r => decide (r.name ≠ candidate.name))

/-- Modelled from the spec: the `shouldProcess` admission gate of the
node replacement handler is exercised by the handler tests but its body
is not among the sources.  Per the design it evaluates the candidate
against every other replacement in the given list (self excluded): any
other replacement in phase InProgress blocks with an "is already
in-progress" reason regardless of priority; otherwise any other
replacement of strictly greater priority blocks with a "has a higher
priority" reason; otherwise the candidate proceeds with an empty
reason. -/
def shouldProcess (candidate : NodeReplacement) (replacements : List NodeReplacement) :
    Bool × String :=
  match (otherReplacements candidate replacements).find?
      (fun r => decide (r.phase = ReplacementPhase.inProgress)) with
  | some r => (false, "NodeReplacement \"" ++ r.name ++ "\" is already in-progress")
  | none =>
      match (otherReplacements candidate replacements).find?
          (fun r => decide (candidate.priority < r.priority)) with
      | some r => (false, "NodeReplacement \"" ++ r.name ++ "\" has a higher priority")
      | none => (true, "")

/-- An owner reference as read by the pod classifier: only the kind is
inspected. -/
structure OwnerReference where
  kind : String
deriving DecidableEq, Repr

/-- A pod as read by the pod classifier: its name, the node it is bound
to and its owner references. -/
structure Pod where
  name : String
  nodeName : String
  ownerReferences : List OwnerReference
deriving DecidableEq, Repr

/-- navarchosv1alpha1.PodReason: a pod deliberately left alone together
with the reason. -/
structure PodReason where
  name : String
  reason : String
deriving DecidableEq, Repr

/-- True when the pod has a DaemonSet-kind owner reference. -/
def isDaemonSetOwned (p : Pod) : Bool :=
  p.ownerReferences.any (fun o => decide (o.kind = "DaemonSet"))

/-- The `processPods` pod classifier of the node replacement handler: its
body is not among the sources, so it is reconstructed from the
repository's own handler test, which expects every pod bound to the node
to be listed in the first component (NodePods) — DaemonSet-owned pods
included — and the DaemonSet-owned pods to be additionally recorded in
the second component (IgnoredPods) with the reason
"pod owned by a DaemonSet". -/
def processPods (node : String) (pods : List Pod) : List String × List PodReason :=
  let bound := pods.filter (fun p => decide (p.nodeName = node))
  (bound.map (fun p => p.name),
   (bound.filter (fun p => isDaemonSetOwned p)).map
     (fun p => { name := p.name, reason := "pod owned by a DaemonSet" }))

/-- The number of entries of the given condition type in a condition
list. -/
def countType (conds : List NodeRolloutCondition) (t : String) : Nat :=
  (conds.filter (fun c => decide (c.condType = t))).length

/-! ### Concrete example inputs used to witness the theorems -/

/-- A freshly created NodeRolloutStatus with no fields assigned. -/
def exStatusEmpty : NodeRolloutStatus :=
  { phase := NodeRolloutPhase.new
    replacementsCreated := none
    replacementsCreatedCount := 0
    replacementsCompleted := none
    replacementsCompletedCount := 0
    replacementsFailed := none
    replacementsFailedCount := 0
    completionTimestamp := none
    conditions := [] }

/-- A Result supplying no fields. -/
def exResultEmpty : Result :=
  { phase := none
    replacementsCreated := none
    replacementsCompleted := none
    completionTimestamp := none
    replacementsCreatedError := none
    replacementsCreatedReason := ""
    replacementsInProgressError := none
    replacementsInProgressReason := "" }

/-- A rollout with nothing in its status. -/
def exRolloutEmpty : NodeRollout := { name := "example-rollout", status := exStatusEmpty }

/-- A rollout whose ReplacementsCreated was already assigned. -/
def exRolloutCreatedSet : NodeRollout :=
  { name := "example-rollout"
    status := { exStatusEmpty with
      replacementsCreated := some ["m1", "w1"], replacementsCreatedCount := 2 } }

/-- A rollout whose ReplacementsCreated was assigned the empty list. -/
def exRolloutCreatedEmpty : NodeRollout :=
  { name := "example-rollout"
    status := { exStatusEmpty with
      replacementsCreated := some [], replacementsCreatedCount := 0 } }

/-- A rollout whose CompletionTimestamp was already assigned. -/
def exRolloutTsSet : NodeRollout :=
  { name := "example-rollout"
    status := { exStatusEmpty with completionTimestamp := some 100 } }

/-- A Result supplying a ReplacementsCreated value. -/
def exResultCreated : Result :=
  { exResultEmpty with replacementsCreated := some ["m1", "m2", "w1", "w2"] }

/-- A Result supplying a CompletionTimestamp value. -/
def exResultTs : Result := { exResultEmpty with completionTimestamp := some 200 }

/-- A Result supplying only a phase. -/
def exResultPhase : Result :=
  { exResultEmpty with phase := some NodeRolloutPhase.inProgress }

/-- The status of exRolloutEmpty after the phase of exResultPhase is
merged in. -/
def exStatusPhase : NodeRolloutStatus :=
  { exStatusEmpty with phase := NodeRolloutPhase.inProgress }

/-- A malformed Result: a created error without a created reason. -/
def exResultBadCreated : Result :=
  { exResultEmpty with replacementsCreatedError := some "boom" }

/-- A malformed Result: an in-progress error without an in-progress
reason. -/
def exResultBadInProgress : Result :=
  { exResultEmpty with replacementsInProgressError := some "boom" }

/-- A Result carrying a created error together with its reason. -/
def exResultCreatedReason : Result :=
  { exResultEmpty with
    replacementsCreatedError := some "boom"
    replacementsCreatedReason := "CreatedErrorReason" }

/-- A rollout status whose ReplacementsCompleted already holds m1 and
w1. -/
def exStatusCompletedSet : NodeRolloutStatus :=
  { exStatusEmpty with
    replacementsCompleted := some ["m1", "w1"], replacementsCompletedCount := 2 }

/-- A Result supplying the ReplacementsCompleted names m2 and w2. -/
def exResultCompleted : Result :=
  { exResultEmpty with replacementsCompleted := some ["m2", "w2"] }

/-- A Result whose ReplacementsCompleted list repeats a name. -/
def exResultCompletedDup : Result :=
  { exResultEmpty with replacementsCompleted := some ["node-a", "node-a"] }

/-- An existing ReplacementsCreated condition entry. -/
def exCurCond : NodeRolloutCondition :=
  { condType := ReplacementsCreatedType
    status := ConditionStatus.conditionTrue
    lastUpdateTime := 1
    lastTransitionTime := 1
    reason := "Ready"
    message := "old message" }

/-- A rollout status holding exCurCond as its only condition. -/
def exStatusWithCond : NodeRolloutStatus := { exStatusEmpty with conditions := [exCurCond] }

/-- A freshly built ReplacementsCreated condition. -/
def exCondReady : NodeRolloutCondition :=
  { condType := ReplacementsCreatedType
    status := ConditionStatus.conditionTrue
    lastUpdateTime := 7
    lastTransitionTime := 7
    reason := "Ready"
    message := "" }

/-- A Result supplying only a created-condition reason. -/
def exResultReadyReason : Result :=
  { exResultEmpty with replacementsCreatedReason := "Ready" }

/-- The status exStatusEmpty after the Ready created-condition of
exResultReadyReason is applied at instant 7. -/
def exStatusReadyCond : NodeRolloutStatus :=
  { exStatusEmpty with conditions := [exCondReady] }

/-- The candidate replacement of the handler tests. -/
def exCandidate : NodeReplacement :=
  { name := "example", priority := 0, phase := ReplacementPhase.new }

/-- The higher-priority replacement of the handler tests. -/
def exHighPriority : NodeReplacement :=
  { name := "high-priority", priority := 10, phase := ReplacementPhase.new }

/-- The in-progress replacement of the handler tests. -/
def exInProgress : NodeReplacement :=
  { name := "in-progress", priority := 0, phase := ReplacementPhase.inProgress }

/-- The pods of the handler test: three pods on worker-1, the second
owned by a DaemonSet, and one pod on another node. -/
def exPod1 : Pod := { name := "pod-1", nodeName := "worker-1", ownerReferences := [] }

def exPod2 : Pod :=
  { name := "pod-2", nodeName := "worker-1", ownerReferences := [{ kind := "DaemonSet" }] }

def exPod3 : Pod := { name := "pod-3", nodeName := "worker-1", ownerReferences := [] }

def exPod4 : Pod := { name := "pod-4", nodeName := "worker-2", ownerReferences := [] }

/-! ### Field-preservation lemmas for the merge chain -/

theorem setPhase_replacementsCreated (s : NodeRolloutStatus) (r : Result) :
    (setPhase s r).replacementsCreated = s.replacementsCreated := by
  unfold setPhase; cases r.phase <;> rfl

theorem setPhase_completionTimestamp (s : NodeRolloutStatus) (r : Result) :
    (setPhase s r).completionTimestamp = s.completionTimestamp := by
  unfold setPhase; cases r.phase <;> rfl

theorem setPhase_replacementsCompleted (s : NodeRolloutStatus) (r : Result) :
    (setPhase s r).replacementsCompleted = s.replacementsCompleted := by
  unfold setPhase; cases r.phase <;> rfl

theorem setPhase_conditions (s : NodeRolloutStatus) (r : Result) :
    (setPhase s r).conditions = s.conditions := by
  unfold setPhase; cases r.phase <;> rfl

theorem setReplacementsCreated_error (s : NodeRolloutStatus) (r : Result)
    (hs : s.replacementsCreated.isSome) (hr : r.replacementsCreated.isSome) :
    setReplacementsCreated s r =
      .error "cannot update ReplacementsCreated, field is immutable once set" := by
  rcases ha : s.replacementsCreated with _ | a
  · rw [ha] at hs; simp at hs
  · rcases hb : r.replacementsCreated with _ | b
    · rw [hb] at hr; simp at hr
    · unfold setReplacementsCreated; rw [ha, hb]

theorem setReplacementsCreated_ok (s : NodeRolloutStatus) (r : Result)
    (h : ¬(s.replacementsCreated.isSome ∧ r.replacementsCreated.isSome)) :
    ∃ s2, setReplacementsCreated s r = .ok s2 ∧
      s2.completionTimestamp = s.completionTimestamp ∧
      s2.replacementsCompleted = s.replacementsCompleted ∧
      s2.conditions = s.conditions := by
  unfold setReplacementsCreated
  rcases ha : s.replacementsCreated with _ | a <;> rcases hb : r.replacementsCreated with _ | b
  · exact ⟨s, rfl, rfl, rfl, rfl⟩
  · exact ⟨_, rfl, rfl, rfl, rfl⟩
  · exact ⟨s, rfl, rfl, rfl, rfl⟩
  · exact absurd ⟨by rw [ha]; rfl, by rw [hb]; rfl⟩ h

theorem setReplacementsCompleted_completionTimestamp (s : NodeRolloutStatus) (r : Result) :
    (setReplacementsCompleted s r).completionTimestamp = s.completionTimestamp := by
  unfold setReplacementsCompleted
  rcases s.replacementsCompleted with _ | a <;> rcases r.replacementsCompleted with _ | b <;> rfl

theorem setReplacementsCompleted_conditions (s : NodeRolloutStatus) (r : Result) :
    (setReplacementsCompleted s r).conditions = s.conditions := by
  unfold setReplacementsCompleted
  rcases s.replacementsCompleted with _ | a <;> rcases r.replacementsCompleted with _ | b <;> rfl

theorem setCompletionTimestamp_error (s : NodeRolloutStatus) (r : Result)
    (hs : s.completionTimestamp.isSome) (hr : r.completionTimestamp.isSome) :
    setCompletionTimestamp s r =
      .error "cannot update CompletionTimestamp, field is immutable once set" := by
  rcases ha : s.completionTimestamp with _ | a
  · rw [ha] at hs; simp at hs
  · rcases hb : r.completionTimestamp with _ | b
    · rw [hb] at hr; simp at hr
    · unfold setCompletionTimestamp; rw [ha, hb]

theorem setCompletionTimestamp_ok (s : NodeRolloutStatus) (r : Result)
    (h : ¬(s.completionTimestamp.isSome ∧ r.completionTimestamp.isSome)) :
    ∃ s2, setCompletionTimestamp s r = .ok s2 ∧ s2.conditions = s.conditions := by
  unfold setCompletionTimestamp
  rcases ha : s.completionTimestamp with _ | a <;> rcases hb : r.completionTimestamp with _ | b
  · exact ⟨s, rfl, rfl⟩
  · exact ⟨_, rfl, rfl⟩
  · exact ⟨s, rfl, rfl⟩
  · exact absurd ⟨by rw [ha]; rfl, by rw [hb]; rfl⟩ h

/-! ### Lemmas about the duplicate-dropping append -/

theorem mem_appendIfMissingElement (slice : List String) (i x : String) :
    x ∈ appendIfMissingElement slice i ↔ x ∈ slice ∨ x = i := by
  unfold appendIfMissingElement
  by_cases h : slice.any (fun ele => decide (ele = i)) = true
  · rw [if_pos h]
    have hi : i ∈ slice := by
      rcases List.any_eq_true.mp h with ⟨a, ha, hp⟩
      simp only [decide_eq_true_eq] at hp
      exact hp ▸ ha
    constructor
    · exact Or.inl
    · rintro (hx | rfl)
      · exact hx
      · exact hi
  · rw [if_neg h]
    simp [List.mem_append]

theorem nodup_appendIfMissingElement (slice : List String) (i : String)
    (h : slice.Nodup) : (appendIfMissingElement slice i).Nodup := by
  unfold appendIfMissingElement
  by_cases hc : slice.any (fun ele => decide (ele = i)) = true
  · rwa [if_pos hc]
  · rw [if_neg hc]
    have hi : i ∉ slice := by
      intro hmem
      exact hc (List.any_eq_true.mpr ⟨i, hmem, by simp⟩)
    simp [List.nodup_append, h, List.disjoint_singleton, hi]

theorem mem_appendIfMissingStr (slice str : List String) (x : String) :
    x ∈ appendIfMissingStr slice str ↔ x ∈ slice ∨ x ∈ str := by
  induction str generalizing slice with
  | nil => simp [appendIfMissingStr]
  | cons a tl ih =>
      unfold appendIfMissingStr at ih ⊢
      simp only [List.foldl_cons]
      rw [ih, mem_appendIfMissingElement]
      constructor
      · rintro ((hx | rfl) | hx)
        · exact Or.inl hx
        · exact Or.inr (List.mem_cons_self _ _)
        · exact Or.inr (List.mem_cons_of_mem _ hx)
      · rintro (hx | hx)
        · exact Or.inl (Or.inl hx)
        · rcases List.mem_cons.mp hx with rfl | hx
          · exact Or.inl (Or.inr rfl)
          · exact Or.inr hx

theorem nodup_appendIfMissingStr (slice str : List String) (h : slice.Nodup) :
    (appendIfMissingStr slice str).Nodup := by
  induction str generalizing slice with
  | nil => exact h
  | cons a tl ih =>
      unfold appendIfMissingStr at ih ⊢
      simp only [List.foldl_cons]
      exact ih _ (nodup_appendIfMissingElement _ _ h)

/-! ### Counting conditions by type -/

theorem countType_append (l1 l2 : List NodeRolloutCondition) (t : String) :
    countType (l1 ++ l2) t = countType l1 t + countType l2 t := by
  simp [countType, List.filter_append]

theorem filterOutCondition_cons_drop (c : NodeRolloutCondition)
    (cs : List NodeRolloutCondition) (t : String) (hc : c.condType = t) :
    filterOutCondition (c :: cs) t = filterOutCondition cs t := by
  unfold filterOutCondition
  rw [List.filter_cons, if_neg (by simp [hc])]

theorem filterOutCondition_cons_keep (c : NodeRolloutCondition)
    (cs : List NodeRolloutCondition) (t : String) (hc : ¬c.condType = t) :
    filterOutCondition (c :: cs) t = c :: filterOutCondition cs t := by
  unfold filterOutCondition
  rw [List.filter_cons, if_pos (by simp [hc])]

theorem countType_cons_hit (c : NodeRolloutCondition)
    (cs : List NodeRolloutCondition) (t : String) (hc : c.condType = t) :
    countType (c :: cs) t = countType cs t + 1 := by
  unfold countType
  rw [List.filter_cons, if_pos (by simp [hc])]
  rfl

theorem countType_cons_miss (c : NodeRolloutCondition)
    (cs : List NodeRolloutCondition) (t : String) (hc : ¬c.condType = t) :
    countType (c :: cs) t = countType cs t := by
  unfold countType
  rw [List.filter_cons, if_neg (by simp [hc])]

theorem countType_filterOut_self (conds : List NodeRolloutCondition) (t : String) :
    countType (filterOutCondition conds t) t = 0 := by
  induction conds with
  | nil => rfl
  | cons c cs ih =>
      by_cases hc : c.condType = t
      · rw [filterOutCondition_cons_drop c cs t hc, ih]
      · rw [filterOutCondition_cons_keep c cs t hc, countType_cons_miss c _ t hc, ih]

theorem countType_filterOut_other (conds : List NodeRolloutCondition) (t tp : String)
    (h : tp ≠ t) : countType (filterOutCondition conds t) tp = countType conds tp := by
  induction conds with
  | nil => rfl
  | cons c cs ih =>
      by_cases hc : c.condType = t
      · have hcp : ¬c.condType = tp := fun he => h (he ▸ hc)
        rw [filterOutCondition_cons_drop c cs t hc, countType_cons_miss c cs tp hcp, ih]
      · rw [filterOutCondition_cons_keep c cs t hc]
        by_cases hcp : c.condType = tp
        · rw [countType_cons_hit c _ tp hcp, countType_cons_hit c cs tp hcp, ih]
        · rw [countType_cons_miss c _ tp hcp, countType_cons_miss c cs tp hcp, ih]

theorem getNodeRolloutCondition_some (s : NodeRolloutStatus) (t : String)
    (cur : NodeRolloutCondition) (h : getNodeRolloutCondition s t = some cur) :
    cur ∈ s.conditions ∧ cur.condType = t := by
  unfold getNodeRolloutCondition at h
  refine ⟨List.mem_of_find?_eq_some h, ?_⟩
  have := List.find?_some h
  simpa using this

theorem countType_pos_of_mem (conds : List NodeRolloutCondition)
    (c : NodeRolloutCondition) (t : String) (hm : c ∈ conds) (ht : c.condType = t) :
    1 ≤ countType conds t := by
  have hmem : c ∈ conds.filter (fun c => decide (c.condType = t)) :=
    List.mem_filter.mpr ⟨hm, by simp [ht]⟩
  exact List.length_pos_of_mem hmem

/-! ### Structure of setNodeRolloutCondition and the per-type invariant -/

theorem setNodeRolloutCondition_conditions (s : NodeRolloutStatus)
    (c : NodeRolloutCondition) :
    ((∃ cur, getNodeRolloutCondition s c.condType = some cur) ∧
      (setNodeRolloutCondition s c).conditions = s.conditions) ∨
    ∃ cc : NodeRolloutCondition, cc.condType = c.condType ∧
      (setNodeRolloutCondition s c).conditions =
        filterOutCondition s.conditions c.condType ++ [cc] := by
  unfold setNodeRolloutCondition
  split
  next cur hg =>
      split_ifs with he hs2
      · exact Or.inl ⟨⟨cur, hg⟩, rfl⟩
      · exact Or.inr ⟨{ c with lastTransitionTime := cur.lastTransitionTime }, rfl, rfl⟩
      · exact Or.inr ⟨c, rfl, rfl⟩
  next hg => exact Or.inr ⟨c, rfl, rfl⟩

theorem atMostOne_setNodeRolloutCondition (s : NodeRolloutStatus)
    (c : NodeRolloutCondition) (h : ∀ t, countType s.conditions t ≤ 1) :
    ∀ t, countType (setNodeRolloutCondition s c).conditions t ≤ 1 := by
  intro t
  rcases setNodeRolloutCondition_conditions s c with ⟨-, hc⟩ | ⟨cc, hcc, hc⟩
  · rw [hc]; exact h t
  · rw [hc, countType_append]
    by_cases ht : t = c.condType
    · rw [ht, countType_filterOut_self]
      have h1 : countType [cc] c.condType = 1 := by
        rw [countType_cons_hit cc [] c.condType hcc]
        rfl
      omega
    · rw [countType_filterOut_other _ _ _ ht]
      have h1 : countType [cc] t = 0 := by
        rw [countType_cons_miss cc [] t (by rw [hcc]; exact fun he => ht he.symm)]
        rfl
      have h2 := h t
      omega

theorem countType_setNodeRolloutCondition_self (s : NodeRolloutStatus)
    (c : NodeRolloutCondition) (h : ∀ t, countType s.conditions t ≤ 1) :
    countType (setNodeRolloutCondition s c).conditions c.condType = 1 := by
  rcases setNodeRolloutCondition_conditions s c with ⟨⟨cur, hg⟩, hc⟩ | ⟨cc, hcc, hc⟩
  · rw [hc]
    obtain ⟨hmem, htype⟩ := getNodeRolloutCondition_some s c.condType cur hg
    have h1 := countType_pos_of_mem s.conditions cur c.condType hmem htype
    have h2 := h c.condType
    omega
  · rw [hc, countType_append, countType_filterOut_self,
      countType_cons_hit cc [] c.condType hcc]
    rfl

/-! ### Shape of the fallible setters on success -/

theorem setReplacementsCreated_ok_conditions (s s2 : NodeRolloutStatus) (r : Result)
    (h : setReplacementsCreated s r = .ok s2) : s2.conditions = s.conditions := by
  unfold setReplacementsCreated at h
  split at h
  · exact absurd h (by simp)
  · injection h with h; rw [← h]
  · injection h with h; rw [← h]

theorem setCompletionTimestamp_ok_conditions (s s2 : NodeRolloutStatus) (r : Result)
    (h : setCompletionTimestamp s r = .ok s2) : s2.conditions = s.conditions := by
  unfold setCompletionTimestamp at h
  split at h
  · exact absurd h (by simp)
  · injection h with h; rw [← h]
  · injection h with h; rw [← h]

theorem setCreatedCondition_ok_shape (now : Nat) (s s2 : NodeRolloutStatus) (r : Result)
    (h : setCreatedCondition now s r = .ok s2) :
    s2 = s ∨ ∃ c, s2 = setNodeRolloutCondition s c := by
  unfold setCreatedCondition at h
  by_cases h1 : r.replacementsCreatedError.isSome ∧ r.replacementsCreatedReason = ""
  · rw [if_pos h1] at h
    exact absurd h (by simp)
  · rw [if_neg h1] at h
    by_cases h2 : r.replacementsCreatedReason ≠ ""
    · rw [if_pos h2] at h
      injection h with h
      exact Or.inr ⟨_, h.symm⟩
    · rw [if_neg h2] at h
      injection h with h
      exact Or.inl h.symm

theorem setInProgressCondition_ok_shape (now : Nat) (s s2 : NodeRolloutStatus)
    (r : Result) (h : setInProgressCondition now s r = .ok s2) :
    s2 = s ∨ ∃ c, s2 = setNodeRolloutCondition s c := by
  unfold setInProgressCondition at h
  by_cases h1 : r.replacementsInProgressError.isSome ∧ r.replacementsInProgressReason = ""
  · rw [if_pos h1] at h
    exact absurd h (by simp)
  · rw [if_neg h1] at h
    by_cases h2 : r.replacementsInProgressReason ≠ ""
    · rw [if_pos h2] at h
      injection h with h
      exact Or.inr ⟨_, h.symm⟩
    · rw [if_neg h2] at h
      injection h with h
      exact Or.inl h.symm

theorem atMostOne_applyResult (now : Nat) (s0 s6 : NodeRolloutStatus) (r : Result)
    (hwf : ∀ t, countType s0.conditions t ≤ 1)
    (hok : applyResult now s0 r = .ok s6) :
    ∀ t, countType s6.conditions t ≤ 1 := by
  unfold applyResult at hok
  split at hok
  · exact absurd hok (by simp)
  next s2 h1 =>
      have hc2 : s2.conditions = s0.conditions :=
        (setReplacementsCreated_ok_conditions _ _ _ h1).trans (setPhase_conditions s0 r)
      split at hok
      · exact absurd hok (by simp)
      next s4 h2 =>
          have hc4 : s4.conditions = s0.conditions :=
            ((setCompletionTimestamp_ok_conditions _ _ _ h2).trans
              (setReplacementsCompleted_conditions s2 r)).trans hc2
          have hwf4 : ∀ t, countType s4.conditions t ≤ 1 := by
            intro t; rw [hc4]; exact hwf t
          split at hok
          · exact absurd hok (by simp)
          next s5 h3 =>
              have hwf5 : ∀ t, countType s5.conditions t ≤ 1 := by
                rcases setCreatedCondition_ok_shape now s4 s5 r h3 with rfl | ⟨c, rfl⟩
                · exact hwf4
                · exact atMostOne_setNodeRolloutCondition s4 c hwf4
              split at hok
              · exact absurd hok (by simp)
              next s6x h4 =>
                  injection hok with hok
                  subst hok
                  rcases setInProgressCondition_ok_shape now s5 s6x r h4 with rfl | ⟨c, rfl⟩
                  · exact hwf5
                  · exact atMostOne_setNodeRolloutCondition s5 c hwf5

/-! ### Stepping lemmas for the merge chain of applyResult -/

theorem applyResult_error1 (now : Nat) (s0 : NodeRolloutStatus) (r : Result) (e : String)
    (h : setReplacementsCreated (setPhase s0 r) r = .error e) :
    applyResult now s0 r = .error e := by
  unfold applyResult
  rw [h]

theorem applyResult_ok1 (now : Nat) (s0 : NodeRolloutStatus) (r : Result)
    (s2 : NodeRolloutStatus) (h : setReplacementsCreated (setPhase s0 r) r = .ok s2) :
    applyResult now s0 r =
      match setCompletionTimestamp (setReplacementsCompleted s2 r) r with
      | .error e => .error e
      | .ok status4 =>
          match setCreatedCondition now status4 r with
          | .error e => .error e
          | .ok status5 =>
              match setInProgressCondition now status5 r with
              | .error e => .error e
              | .ok status6 => .ok status6 := by
  unfold applyResult
  rw [h]

theorem applyResult_error2 (now : Nat) (s0 : NodeRolloutStatus) (r : Result)
    (s2 : NodeRolloutStatus) (e : String)
    (h1 : setReplacementsCreated (setPhase s0 r) r = .ok s2)
    (h2 : setCompletionTimestamp (setReplacementsCompleted s2 r) r = .error e) :
    applyResult now s0 r = .error e := by
  rw [applyResult_ok1 now s0 r s2 h1, h2]

theorem applyResult_ok2 (now : Nat) (s0 : NodeRolloutStatus) (r : Result)
    (s2 s4 : NodeRolloutStatus)
    (h1 : setReplacementsCreated (setPhase s0 r) r = .ok s2)
    (h2 : setCompletionTimestamp (setReplacementsCompleted s2 r) r = .ok s4) :
    applyResult now s0 r =
      match setCreatedCondition now s4 r with
      | .error e => .error e
      | .ok status5 =>
          match setInProgressCondition now status5 r with
          | .error e => .error e
          | .ok status6 => .ok status6 := by
  rw [applyResult_ok1 now s0 r s2 h1, h2]

theorem applyResult_error3 (now : Nat) (s0 : NodeRolloutStatus) (r : Result)
    (s2 s4 : NodeRolloutStatus) (e : String)
    (h1 : setReplacementsCreated (setPhase s0 r) r = .ok s2)
    (h2 : setCompletionTimestamp (setReplacementsCompleted s2 r) r = .ok s4)
    (h3 : setCreatedCondition now s4 r = .error e) :
    applyResult now s0 r = .error e := by
  rw [applyResult_ok2 now s0 r s2 s4 h1 h2, h3]

theorem applyResult_ok3 (now : Nat) (s0 : NodeRolloutStatus) (r : Result)
    (s2 s4 s5 : NodeRolloutStatus)
    (h1 : setReplacementsCreated (setPhase s0 r) r = .ok s2)
    (h2 : setCompletionTimestamp (setReplacementsCompleted s2 r) r = .ok s4)
    (h3 : setCreatedCondition now s4 r = .ok s5) :
    applyResult now s0 r =
      match setInProgressCondition now s5 r with
      | .error e => .error e
      | .ok status6 => .ok status6 := by
  rw [applyResult_ok2 now s0 r s2 s4 h1 h2, h3]

theorem applyResult_error4 (now : Nat) (s0 : NodeRolloutStatus) (r : Result)
    (s2 s4 s5 : NodeRolloutStatus) (e : String)
    (h1 : setReplacementsCreated (setPhase s0 r) r = .ok s2)
    (h2 : setCompletionTimestamp (setReplacementsCompleted s2 r) r = .ok s4)
    (h3 : setCreatedCondition now s4 r = .ok s5)
    (h4 : setInProgressCondition now s5 r = .error e) :
    applyResult now s0 r = .error e := by
  rw [applyResult_ok3 now s0 r s2 s4 s5 h1 h2 h3, h4]

theorem applyResult_created_conflict (now : Nat) (s0 : NodeRolloutStatus) (r : Result)
    (hs : s0.replacementsCreated.isSome) (hr : r.replacementsCreated.isSome) :
    applyResult now s0 r =
      .error "cannot update ReplacementsCreated, field is immutable once set" :=
  applyResult_error1 now s0 r _
    (setReplacementsCreated_error (setPhase s0 r) r
      (by rw [setPhase_replacementsCreated]; exact hs) hr)

theorem applyResult_ts_conflict (now : Nat) (s0 : NodeRolloutStatus) (r : Result)
    (hts : s0.completionTimestamp.isSome) (hrts : r.completionTimestamp.isSome)
    (hnc : ¬(s0.replacementsCreated.isSome ∧ r.replacementsCreated.isSome)) :
    applyResult now s0 r =
      .error "cannot update CompletionTimestamp, field is immutable once set" := by
  obtain ⟨s2, h1, hct, -, -⟩ := setReplacementsCreated_ok (setPhase s0 r) r
    (fun hab => hnc ⟨by rw [← setPhase_replacementsCreated s0 r]; exact hab.1, hab.2⟩)
  exact applyResult_error2 now s0 r s2 _ h1
    (setCompletionTimestamp_error _ r
      (by rw [setReplacementsCompleted_completionTimestamp, hct,
        setPhase_completionTimestamp]; exact hts) hrts)

theorem setCreatedCondition_ok_exists (now : Nat) (s : NodeRolloutStatus) (r : Result)
    (h : ¬(r.replacementsCreatedError.isSome ∧ r.replacementsCreatedReason = "")) :
    ∃ s5, setCreatedCondition now s r = .ok s5 := by
  unfold setCreatedCondition
  rw [if_neg h]
  by_cases h2 : r.replacementsCreatedReason ≠ ""
  · rw [if_pos h2]; exact ⟨_, rfl⟩
  · rw [if_neg h2]; exact ⟨_, rfl⟩

theorem applyResult_created_reason_missing (now : Nat) (s0 : NodeRolloutStatus)
    (r : Result) (he : r.replacementsCreatedError.isSome)
    (hre : r.replacementsCreatedReason = "")
    (hnc : ¬(s0.replacementsCreated.isSome ∧ r.replacementsCreated.isSome))
    (hnt : ¬(s0.completionTimestamp.isSome ∧ r.completionTimestamp.isSome)) :
    applyResult now s0 r =
      .error "if ReplacementsCreatedError is set, ReplacementsCreatedReason must also be set" := by
  obtain ⟨s2, h1, hct, -, -⟩ := setReplacementsCreated_ok (setPhase s0 r) r
    (fun hab => hnc ⟨by rw [← setPhase_replacementsCreated s0 r]; exact hab.1, hab.2⟩)
  obtain ⟨s4, h2, -⟩ := setCompletionTimestamp_ok (setReplacementsCompleted s2 r) r
    (fun hab => hnt ⟨by rw [← setPhase_completionTimestamp s0 r, ← hct,
      ← setReplacementsCompleted_completionTimestamp s2 r]; exact hab.1, hab.2⟩)
  refine applyResult_error3 now s0 r s2 s4 _ h1 h2 ?_
  unfold setCreatedCondition
  rw [if_pos ⟨he, hre⟩]

theorem applyResult_inprogress_reason_missing (now : Nat) (s0 : NodeRolloutStatus)
    (r : Result) (he : r.replacementsInProgressError.isSome)
    (hre : r.replacementsInProgressReason = "")
    (hnc : ¬(s0.replacementsCreated.isSome ∧ r.replacementsCreated.isSome))
    (hnt : ¬(s0.completionTimestamp.isSome ∧ r.completionTimestamp.isSome))
    (hncr : ¬(r.replacementsCreatedError.isSome ∧ r.replacementsCreatedReason = "")) :
    applyResult now s0 r =
      .error "if ReplacementsInProgressError is set, ReplacementsInProgressReason must also be set" := by
  obtain ⟨s2, h1, hct, -, -⟩ := setReplacementsCreated_ok (setPhase s0 r) r
    (fun hab => hnc ⟨by rw [← setPhase_replacementsCreated s0 r]; exact hab.1, hab.2⟩)
  obtain ⟨s4, h2, -⟩ := setCompletionTimestamp_ok (setReplacementsCompleted s2 r) r
    (fun hab => hnt ⟨by rw [← setPhase_completionTimestamp s0 r, ← hct,
      ← setReplacementsCompleted_completionTimestamp s2 r]; exact hab.1, hab.2⟩)
  obtain ⟨s5, h3⟩ := setCreatedCondition_ok_exists now s4 r hncr
  refine applyResult_error4 now s0 r s2 s4 s5 _ h1 h2 h3 ?_
  unfold setInProgressCondition
  rw [if_pos ⟨he, hre⟩]

theorem setCreatedCondition_applies (now : Nat) (s : NodeRolloutStatus) (r : Result)
    (hre : r.replacementsCreatedReason ≠ "") :
    setCreatedCondition now s r = .ok (setNodeRolloutCondition s
      { condType := ReplacementsCreatedType
        status := if r.replacementsCreatedError.isSome then ConditionStatus.conditionFalse
          else ConditionStatus.conditionTrue
        lastUpdateTime := now
        lastTransitionTime := now
        reason := r.replacementsCreatedReason
        message := r.replacementsCreatedError.getD "" }) := by
  unfold setCreatedCondition
  rw [if_neg (fun hx => hre hx.2), if_pos hre]
  rcases he : r.replacementsCreatedError with _ | e <;>
    simp [newNodeRolloutCondition, he]

theorem setInProgressCondition_applies (now : Nat) (s : NodeRolloutStatus) (r : Result)
    (hre : r.replacementsInProgressReason ≠ "") :
    setInProgressCondition now s r = .ok (setNodeRolloutCondition s
      { condType := ReplacementsInProgressType
        status := if r.replacementsInProgressError.isSome ∨
            r.replacementsInProgressReason = "ReplacementsCompleted" then
            ConditionStatus.conditionFalse
          else ConditionStatus.conditionTrue
        lastUpdateTime := now
        lastTransitionTime := now
        reason := r.replacementsInProgressReason
        message := r.replacementsInProgressError.getD "" }) := by
  unfold setInProgressCondition
  rw [if_neg (fun hx => hre hx.2), if_pos hre]
  rcases he : r.replacementsInProgressError with _ | e <;>
    by_cases hrc : r.replacementsInProgressReason = "ReplacementsCompleted" <;>
      simp [newNodeRolloutCondition, he, hrc]

theorem setNodeRolloutCondition_found (s : NodeRolloutStatus)
    (c cur : NodeRolloutCondition)
    (hcur : getNodeRolloutCondition s c.condType = some cur) :
    (cur.status = c.status ∧ cur.reason = c.reason →
      setNodeRolloutCondition s c = s)
    ∧ (cur.status = c.status → cur.reason ≠ c.reason →
      (setNodeRolloutCondition s c).conditions =
        filterOutCondition s.conditions c.condType ++
          [{ c with lastTransitionTime := cur.lastTransitionTime }])
    ∧ (cur.status ≠ c.status →
      (setNodeRolloutCondition s c).conditions =
        filterOutCondition s.conditions c.condType ++ [c]) := by
  unfold setNodeRolloutCondition
  split
  next cur2 hg =>
      have hc2 : cur2 = cur := by
        rw [hg] at hcur
        injection hcur
      subst hc2
      refine ⟨?_, ?_, ?_⟩
      · intro he
        rw [if_pos he]
      · intro h1 h2
        rw [if_neg (fun hx => h2 hx.2), if_pos h1]
      · intro h1
        rw [if_neg (fun hx => h1 hx.1), if_neg h1]
  next hg =>
      rw [hg] at hcur
      exact absurd hcur (by simp)

/-! ### Reduction lemmas for UpdateStatus -/

theorem UpdateStatus_of_merge_error (now : Nat) (storeErr : Option String)
    (inst : NodeRollout) (result : Result) (e : String)
    (h : applyResult now inst.status result = .error e) :
    UpdateStatus now storeErr inst result =
      { instanceAfter := inst, write := none, error := some e } := by
  unfold UpdateStatus
  rw [h]

theorem UpdateStatus_of_merge_ok (now : Nat) (storeErr : Option String)
    (inst : NodeRollout) (result : Result) (s : NodeRolloutStatus)
    (h : applyResult now inst.status result = .ok s) :
    UpdateStatus now storeErr inst result =
      if s = inst.status then { instanceAfter := inst, write := none, error := none }
      else
        match storeErr with
        | some e =>
            { instanceAfter := inst, write := some { inst with status := s },
              error := some ("error updating status: " ++ e) }
        | none =>
            { instanceAfter := inst, write := some { inst with status := s },
              error := none } := by
  unfold UpdateStatus
  rw [h]

/-! ### The claimed properties -/

/-- C1: `replacementsCreated` and `completionTimestamp` are write-once
fields of the persisted NodeRollout status.  If the persisted
ReplacementsCreated is already set and the Result also supplies a value,
UpdateStatus returns the ReplacementsCreated immutability error, issues
no store write and leaves the caller's instance untouched.  If the
persisted CompletionTimestamp is already set and the Result supplies
one, UpdateStatus likewise returns an error without writing, the error
being the CompletionTimestamp immutability message whenever the
ReplacementsCreated conflict (which the source checks first) is not also
present. -/
theorem updateStatus_immutable_write_once (now : Nat) (storeErr : Option String)
    (inst : NodeRollout) (result : Result) :
    (inst.status.replacementsCreated.isSome → result.replacementsCreated.isSome →
      UpdateStatus now storeErr inst result =
        { instanceAfter := inst, write := none,
          error := some "cannot update ReplacementsCreated, field is immutable once set" })
    ∧ (inst.status.completionTimestamp.isSome → result.completionTimestamp.isSome →
      ¬(inst.status.replacementsCreated.isSome ∧ result.replacementsCreated.isSome) →
      UpdateStatus now storeErr inst result =
        { instanceAfter := inst, write := none,
          error := some "cannot update CompletionTimestamp, field is immutable once set" })
    ∧ (inst.status.completionTimestamp.isSome → result.completionTimestamp.isSome →
      (UpdateStatus now storeErr inst result).write = none ∧
      (UpdateStatus now storeErr inst result).error ≠ none ∧
      (UpdateStatus now storeErr inst result).instanceAfter = inst) := by
  refine ⟨?_, ?_, ?_⟩
  · intro hs hr
    unfold UpdateStatus
    rw [applyResult_created_conflict now inst.status result hs hr]
  · intro hts hrts hnc
    unfold UpdateStatus
    rw [applyResult_ts_conflict now inst.status result hts hrts hnc]
  · intro hts hrts
    by_cases hnc : inst.status.replacementsCreated.isSome ∧ result.replacementsCreated.isSome
    · unfold UpdateStatus
      rw [applyResult_created_conflict now inst.status result hnc.1 hnc.2]
      exact ⟨rfl, by simp, rfl⟩
    · unfold UpdateStatus
      rw [applyResult_ts_conflict now inst.status result hts hrts hnc]
      exact ⟨rfl, by simp, rfl⟩

/-- C1 witness: the immutability errors at the stored/result values of the
repository's status tests. -/
theorem updateStatus_immutable_write_once_witness :
    UpdateStatus 3 none exRolloutCreatedSet exResultCreated =
      { instanceAfter := exRolloutCreatedSet, write := none,
        error := some "cannot update ReplacementsCreated, field is immutable once set" } ∧
    UpdateStatus 3 none exRolloutTsSet exResultTs =
      { instanceAfter := exRolloutTsSet, write := none,
        error := some "cannot update CompletionTimestamp, field is immutable once set" } :=
  ⟨(updateStatus_immutable_write_once 3 none exRolloutCreatedSet exResultCreated).1
      (by decide) (by decide),
   (updateStatus_immutable_write_once 3 none exRolloutTsSet exResultTs).2.1
      (by decide) (by decide) (by decide)⟩

/-- C10: an empty but assigned (non-nil) ReplacementsCreated counts as
set for the immutability check: if the persisted field holds the empty
list, every Result that supplies any ReplacementsCreated value makes
UpdateStatus fail with the immutability error, without a store write. -/
theorem updateStatus_empty_created_counts_as_set (now : Nat) (storeErr : Option String)
    (inst : NodeRollout) (result : Result) (v : List String)
    (hs : inst.status.replacementsCreated = some [])
    (hr : result.replacementsCreated = some v) :
    UpdateStatus now storeErr inst result =
      { instanceAfter := inst, write := none,
        error := some "cannot update ReplacementsCreated, field is immutable once set" } := by
  unfold UpdateStatus
  rw [applyResult_created_conflict now inst.status result (by rw [hs]; rfl) (by rw [hr]; rfl)]

/-- C10 witness: a stored empty list still triggers the immutability
error against a later non-empty value. -/
theorem updateStatus_empty_created_counts_as_set_witness :
    UpdateStatus 3 none exRolloutCreatedEmpty exResultCreated =
      { instanceAfter := exRolloutCreatedEmpty, write := none,
        error := some "cannot update ReplacementsCreated, field is immutable once set" } :=
  updateStatus_empty_created_counts_as_set 3 none exRolloutCreatedEmpty exResultCreated
    ["m1", "m2", "w1", "w2"] rfl rfl

/-- C7: UpdateStatus issues a store update exactly when the merged
status differs by deep equality from the stored status it started from;
the update carries the instance with the merged status; a store failure
is returned wrapped with the context "error updating status: "; when the
merge produces no change nothing is written and nil is returned; and a
merge error never reaches the store. -/
theorem updateStatus_persistence (now : Nat) (storeErr : Option String)
    (inst : NodeRollout) (result : Result) :
    (∀ s, applyResult now inst.status result = .ok s →
      (((UpdateStatus now storeErr inst result).write ≠ none) ↔ s ≠ inst.status))
    ∧ (∀ s, applyResult now inst.status result = .ok s → s ≠ inst.status →
      (UpdateStatus now storeErr inst result).write = some { inst with status := s })
    ∧ (∀ s, applyResult now inst.status result = .ok s → s = inst.status →
      UpdateStatus now storeErr inst result =
        { instanceAfter := inst, write := none, error := none })
    ∧ (∀ s e, applyResult now inst.status result = .ok s → s ≠ inst.status →
      storeErr = some e →
      (UpdateStatus now storeErr inst result).error =
        some ("error updating status: " ++ e))
    ∧ (∀ s, applyResult now inst.status result = .ok s → s ≠ inst.status →
      storeErr = none → (UpdateStatus now storeErr inst result).error = none)
    ∧ (∀ e, applyResult now inst.status result = .error e →
      (UpdateStatus now storeErr inst result).write = none) := by
  refine ⟨?_, ?_, ?_, ?_, ?_, ?_⟩
  · intro s h
    rw [UpdateStatus_of_merge_ok now storeErr inst result s h]
    by_cases hs : s = inst.status
    · rw [if_pos hs]
      simp [hs]
    · rw [if_neg hs]
      cases storeErr <;> simp [hs]
  · intro s h hs
    rw [UpdateStatus_of_merge_ok now storeErr inst result s h, if_neg hs]
    cases storeErr <;> rfl
  · intro s h hs
    rw [UpdateStatus_of_merge_ok now storeErr inst result s h, if_pos hs]
  · intro s e h hs hse
    rw [UpdateStatus_of_merge_ok now storeErr inst result s h, if_neg hs, hse]
  · intro s h hs hse
    rw [UpdateStatus_of_merge_ok now storeErr inst result s h, if_neg hs, hse]
  · intro e h
    rw [UpdateStatus_of_merge_error now storeErr inst result e h]

/-- C7 witness: a phase-only merge differs from the stored status, so an
update carrying the merged copy is issued, and a failing store call is
wrapped; an empty merge writes nothing and returns nil. -/
theorem updateStatus_persistence_witness :
    (UpdateStatus 0 (some "boom") exRolloutEmpty exResultPhase).write =
      some { exRolloutEmpty with status := exStatusPhase } ∧
    (UpdateStatus 0 (some "boom") exRolloutEmpty exResultPhase).error =
      some ("error updating status: " ++ "boom") ∧
    UpdateStatus 0 none exRolloutEmpty exResultEmpty =
      { instanceAfter := exRolloutEmpty, write := none, error := none } :=
  ⟨(updateStatus_persistence 0 (some "boom") exRolloutEmpty exResultPhase).2.1
      exStatusPhase rfl (by decide),
   (updateStatus_persistence 0 (some "boom") exRolloutEmpty exResultPhase).2.2.2.1
      exStatusPhase "boom" rfl (by decide) rfl,
   (updateStatus_persistence 0 none exRolloutEmpty exResultEmpty).2.2.1
      exStatusEmpty rfl rfl⟩

/-- C9: UpdateStatus never mutates the instance handed to it: the merge
happens on a local copy of the status and the store write is performed
on a copy of the instance, so the caller's instance is unchanged whether
the call succeeded, skipped the write, or failed. -/
theorem updateStatus_frame (now : Nat) (storeErr : Option String) (inst : NodeRollout)
    (result : Result) :
    (UpdateStatus now storeErr inst result).instanceAfter = inst := by
  cases h : applyResult now inst.status result with
  | error e => rw [UpdateStatus_of_merge_error now storeErr inst result e h]
  | ok s =>
      rw [UpdateStatus_of_merge_ok now storeErr inst result s h]
      by_cases hs : s = inst.status
      · rw [if_pos hs]
      · rw [if_neg hs]
        cases storeErr <;> rfl

/-- C6: an error value in the Result requires its reason.  When
ReplacementsCreatedError (respectively ReplacementsInProgressError) is
set while its reason is empty and no earlier merge step fails (the
immutability checks run first, and the created-condition check runs
before the in-progress one), UpdateStatus returns the corresponding
"must also be set" error and performs no store write.  Conversely, when
a non-empty reason is supplied the corresponding condition is applied
with status True by default, flipped to False when the matching error is
set — and, for the in-progress condition, also when the reason is
"ReplacementsCompleted" — with the error's text as the message. -/
theorem updateStatus_condition_errors (now : Nat) (storeErr : Option String)
    (inst : NodeRollout) (result : Result) :
    (result.replacementsCreatedError.isSome → result.replacementsCreatedReason = "" →
      ¬(inst.status.replacementsCreated.isSome ∧ result.replacementsCreated.isSome) →
      ¬(inst.status.completionTimestamp.isSome ∧ result.completionTimestamp.isSome) →
      UpdateStatus now storeErr inst result =
        { instanceAfter := inst, write := none,
          error := some "if ReplacementsCreatedError is set, ReplacementsCreatedReason must also be set" })
    ∧ (result.replacementsInProgressError.isSome →
      result.replacementsInProgressReason = "" →
      ¬(inst.status.replacementsCreated.isSome ∧ result.replacementsCreated.isSome) →
      ¬(inst.status.completionTimestamp.isSome ∧ result.completionTimestamp.isSome) →
      ¬(result.replacementsCreatedError.isSome ∧ result.replacementsCreatedReason = "") →
      UpdateStatus now storeErr inst result =
        { instanceAfter := inst, write := none,
          error := some "if ReplacementsInProgressError is set, ReplacementsInProgressReason must also be set" })
    ∧ (∀ s : NodeRolloutStatus, result.replacementsCreatedReason ≠ "" →
      setCreatedCondition now s result = .ok (setNodeRolloutCondition s
        { condType := ReplacementsCreatedType
          status := if result.replacementsCreatedError.isSome then
              ConditionStatus.conditionFalse
            else ConditionStatus.conditionTrue
          lastUpdateTime := now
          lastTransitionTime := now
          reason := result.replacementsCreatedReason
          message := result.replacementsCreatedError.getD "" }))
    ∧ (∀ s : NodeRolloutStatus, result.replacementsInProgressReason ≠ "" →
      setInProgressCondition now s result = .ok (setNodeRolloutCondition s
        { condType := ReplacementsInProgressType
          status := if result.replacementsInProgressError.isSome ∨
              result.replacementsInProgressReason = "ReplacementsCompleted" then
              ConditionStatus.conditionFalse
            else ConditionStatus.conditionTrue
          lastUpdateTime := now
          lastTransitionTime := now
          reason := result.replacementsInProgressReason
          message := result.replacementsInProgressError.getD "" })) := by
  refine ⟨?_, ?_, ?_, ?_⟩
  · intro he hre hnc hnt
    rw [UpdateStatus_of_merge_error now storeErr inst result _
      (applyResult_created_reason_missing now inst.status result he hre hnc hnt)]
  · intro he hre hnc hnt hncr
    rw [UpdateStatus_of_merge_error now storeErr inst result _
      (applyResult_inprogress_reason_missing now inst.status result he hre hnc hnt hncr)]
  · exact fun s hre => setCreatedCondition_applies now s result hre
  · exact fun s hre => setInProgressCondition_applies now s result hre

/-- C6 witness: the malformed-result errors at the empty status, and the
created condition applied with status False and the error text when both
the error and its reason are supplied. -/
theorem updateStatus_condition_errors_witness :
    UpdateStatus 0 none exRolloutEmpty exResultBadCreated =
      { instanceAfter := exRolloutEmpty, write := none,
        error := some "if ReplacementsCreatedError is set, ReplacementsCreatedReason must also be set" } ∧
    UpdateStatus 0 none exRolloutEmpty exResultBadInProgress =
      { instanceAfter := exRolloutEmpty, write := none,
        error := some "if ReplacementsInProgressError is set, ReplacementsInProgressReason must also be set" } ∧
    setCreatedCondition 5 exStatusEmpty exResultCreatedReason =
      .ok (setNodeRolloutCondition exStatusEmpty
        { condType := ReplacementsCreatedType
          status := if exResultCreatedReason.replacementsCreatedError.isSome then
              ConditionStatus.conditionFalse
            else ConditionStatus.conditionTrue
          lastUpdateTime := 5
          lastTransitionTime := 5
          reason := exResultCreatedReason.replacementsCreatedReason
          message := exResultCreatedReason.replacementsCreatedError.getD "" }) :=
  ⟨(updateStatus_condition_errors 0 none exRolloutEmpty exResultBadCreated).1
      (by decide) rfl (by decide) (by decide),
   (updateStatus_condition_errors 0 none exRolloutEmpty exResultBadInProgress).2.1
      (by decide) rfl (by decide) (by decide) (by decide),
   (updateStatus_condition_errors 5 none exRolloutEmpty exResultCreatedReason).2.2.1
      exStatusEmpty (by decide)⟩

/-- C4: the condition-update rule.  Re-applying a freshly built
condition whose status and reason match the stored entry of the same
type changes nothing at all; an unchanged status with a new reason
replaces the entry keeping the old lastTransitionTime while the
lastUpdateTime (and the rest) come from the fresh condition; a changed
status replaces the entry with both timestamps taken anew. -/
theorem setNodeRolloutCondition_timestamp_rules (now : Nat) (s : NodeRolloutStatus)
    (t reason msg : String) (st : ConditionStatus) (cur : NodeRolloutCondition)
    (hcur : getNodeRolloutCondition s t = some cur) :
    (cur.status = st → cur.reason = reason →
      setNodeRolloutCondition s (newNodeRolloutCondition now t st reason msg) = s)
    ∧ (cur.status = st → cur.reason ≠ reason →
      (setNodeRolloutCondition s (newNodeRolloutCondition now t st reason msg)).conditions =
        filterOutCondition s.conditions t ++
          [{ condType := t, status := st, lastUpdateTime := now,
             lastTransitionTime := cur.lastTransitionTime, reason := reason,
             message := msg }])
    ∧ (cur.status ≠ st →
      (setNodeRolloutCondition s (newNodeRolloutCondition now t st reason msg)).conditions =
        filterOutCondition s.conditions t ++ [newNodeRolloutCondition now t st reason msg]) := by
  obtain ⟨ha, hb, hc⟩ := setNodeRolloutCondition_found s
    (newNodeRolloutCondition now t st reason msg) cur hcur
  exact ⟨fun h1 h2 => ha ⟨h1, h2⟩, fun h1 h2 => hb h1 h2, fun h1 => hc h1⟩

/-- C4 witness: against a stored (True, Ready) entry, re-applying
(True, Ready) at a later instant is a no-op; applying (True, Requeued)
keeps the old lastTransitionTime 1 with the fresh lastUpdateTime 5;
applying status False renews both timestamps. -/
theorem setNodeRolloutCondition_timestamp_rules_witness :
    setNodeRolloutCondition exStatusWithCond
      (newNodeRolloutCondition 5 ReplacementsCreatedType ConditionStatus.conditionTrue
        "Ready" "new message") = exStatusWithCond ∧
    (setNodeRolloutCondition exStatusWithCond
      (newNodeRolloutCondition 5 ReplacementsCreatedType ConditionStatus.conditionTrue
        "Requeued" "")).conditions =
      filterOutCondition exStatusWithCond.conditions ReplacementsCreatedType ++
        [{ condType := ReplacementsCreatedType, status := ConditionStatus.conditionTrue,
           lastUpdateTime := 5, lastTransitionTime := exCurCond.lastTransitionTime,
           reason := "Requeued", message := "" }] ∧
    (setNodeRolloutCondition exStatusWithCond
      (newNodeRolloutCondition 5 ReplacementsCreatedType ConditionStatus.conditionFalse
        "Failed" "")).conditions =
      filterOutCondition exStatusWithCond.conditions ReplacementsCreatedType ++
        [newNodeRolloutCondition 5 ReplacementsCreatedType ConditionStatus.conditionFalse
          "Failed" ""] :=
  ⟨(setNodeRolloutCondition_timestamp_rules 5 exStatusWithCond ReplacementsCreatedType
      "Ready" "new message" ConditionStatus.conditionTrue exCurCond rfl).1 rfl rfl,
   (setNodeRolloutCondition_timestamp_rules 5 exStatusWithCond ReplacementsCreatedType
      "Requeued" "" ConditionStatus.conditionTrue exCurCond rfl).2.1 rfl (by decide),
   (setNodeRolloutCondition_timestamp_rules 5 exStatusWithCond ReplacementsCreatedType
      "Failed" "" ConditionStatus.conditionFalse exCurCond rfl).2.2 (by decide)⟩

/-- C8: the per-type uniqueness of conditions.  A persisted status with
at most one condition entry per type keeps that shape through any
successful UpdateStatus merge, and applying a condition of some type
always leaves exactly one entry of that type, because the prior entries
of the type are filtered out before the new one is appended (or, on the
no-change path, the single existing entry is kept). -/
theorem updateStatus_conditions_unique (now : Nat) (s0 s6 : NodeRolloutStatus)
    (r : Result) (hwf : ∀ t, countType s0.conditions t ≤ 1)
    (hok : applyResult now s0 r = .ok s6) :
    (∀ t, countType s6.conditions t ≤ 1) ∧
    (∀ (s : NodeRolloutStatus) (c : NodeRolloutCondition),
      (∀ t, countType s.conditions t ≤ 1) →
      countType (setNodeRolloutCondition s c).conditions c.condType = 1) :=
  ⟨atMostOne_applyResult now s0 s6 r hwf hok,
   fun s c h => countType_setNodeRolloutCondition_self s c h⟩

/-- C8 witness: merging a created-condition reason into the empty status
yields exactly one ReplacementsCreated condition. -/
theorem updateStatus_conditions_unique_witness :
    countType exStatusReadyCond.conditions ReplacementsCreatedType ≤ 1 ∧
    countType (setNodeRolloutCondition exStatusEmpty exCondReady).conditions
      exCondReady.condType = 1 :=
  ⟨(updateStatus_conditions_unique 7 exStatusEmpty exStatusReadyCond exResultReadyReason
      (fun _ => Nat.zero_le 1) rfl).1 ReplacementsCreatedType,
   (updateStatus_conditions_unique 7 exStatusEmpty exStatusReadyCond exResultReadyReason
      (fun _ => Nat.zero_le 1) rfl).2 exStatusEmpty exCondReady (fun _ => Nat.zero_le 1)⟩

/-- C3 counterexample: the claim asserts that for every input — even a
Result whose ReplacementsCompleted list repeats a name — no name appears
twice in the stored list.  When the persisted list is unset, the code
stores the result list verbatim: merging the empty status with the list
[node-a, node-a] stores node-a twice. -/
theorem replacementsCompleted_duplicates_counterexample :
    applyResult 0 exStatusEmpty exResultCompletedDup =
      .ok { exStatusEmpty with
        replacementsCompleted := some ["node-a", "node-a"],
        replacementsCompletedCount := 2 } ∧
    ¬(["node-a", "node-a"] : List String).Nodup :=
  ⟨rfl, by decide⟩

/-- C3 amended: when the persisted ReplacementsCompleted is already set,
the merge stores its duplicate-free extension by the Result names — a
list whose members are exactly the union of the two lists, without
duplicates (even when the Result repeats names), and whose length is the
recomputed count.  When the persisted list is unset the Result list is
stored verbatim, duplicates included, with its length as the count. -/
theorem replacementsCompleted_merge_amended (s : NodeRolloutStatus) (r : Result) :
    (∀ ex inc, s.replacementsCompleted = some ex → r.replacementsCompleted = some inc →
      ex.Nodup →
      (setReplacementsCompleted s r).replacementsCompleted =
        some (appendIfMissingStr ex inc) ∧
      (appendIfMissingStr ex inc).Nodup ∧
      (∀ x, x ∈ appendIfMissingStr ex inc ↔ x ∈ ex ∨ x ∈ inc) ∧
      (setReplacementsCompleted s r).replacementsCompletedCount =
        (appendIfMissingStr ex inc).length)
    ∧ (∀ inc, s.replacementsCompleted = none → r.replacementsCompleted = some inc →
      (setReplacementsCompleted s r).replacementsCompleted = some inc ∧
      (setReplacementsCompleted s r).replacementsCompletedCount = inc.length) := by
  constructor
  · intro ex inc hex hinc hnd
    unfold setReplacementsCompleted
    rw [hex, hinc]
    exact ⟨rfl, nodup_appendIfMissingStr ex inc hnd,
      fun x => mem_appendIfMissingStr ex inc x, rfl⟩
  · intro inc hex hinc
    unfold setReplacementsCompleted
    rw [hex, hinc]
    exact ⟨rfl, rfl⟩

/-- C3 witness: merging stored m1, w1 with result m2, w2 yields the
four-element duplicate-free list m1, w1, m2, w2 with count four. -/
theorem replacementsCompleted_merge_amended_witness :
    ((setReplacementsCompleted exStatusCompletedSet exResultCompleted).replacementsCompleted =
        some (appendIfMissingStr ["m1", "w1"] ["m2", "w2"]) ∧
      (appendIfMissingStr ["m1", "w1"] ["m2", "w2"]).Nodup ∧
      (∀ x, x ∈ appendIfMissingStr ["m1", "w1"] ["m2", "w2"] ↔
        x ∈ (["m1", "w1"] : List String) ∨ x ∈ (["m2", "w2"] : List String)) ∧
      (setReplacementsCompleted exStatusCompletedSet
          exResultCompleted).replacementsCompletedCount =
        (appendIfMissingStr ["m1", "w1"] ["m2", "w2"]).length) ∧
    appendIfMissingStr ["m1", "w1"] ["m2", "w2"] = ["m1", "w1", "m2", "w2"] ∧
    (setReplacementsCompleted exStatusCompletedSet
        exResultCompleted).replacementsCompletedCount = 4 :=
  ⟨(replacementsCompleted_merge_amended exStatusCompletedSet exResultCompleted).1
      ["m1", "w1"] ["m2", "w2"] rfl rfl (by decide),
   by decide, by decide⟩

/-- C2: the admission gate.  Among the replacements other than the
candidate (self excluded): any in-progress one blocks the candidate with
the "is already in-progress" reason naming an in-progress replacement,
regardless of priorities; otherwise any strictly higher-priority one
blocks with the "has a higher priority" reason naming such a
replacement; otherwise the candidate proceeds with the empty reason — in
particular a list containing only entries bearing the candidate's own
name never blocks it. -/
theorem shouldProcess_admission (candidate : NodeReplacement)
    (replacements : List NodeReplacement) :
    ((∃ r ∈ otherReplacements candidate replacements,
        r.phase = ReplacementPhase.inProgress) →
      ∃ r ∈ otherReplacements candidate replacements,
        r.phase = ReplacementPhase.inProgress ∧
        shouldProcess candidate replacements =
          (false, "NodeReplacement \"" ++ r.name ++ "\" is already in-progress"))
    ∧ ((∀ r ∈ otherReplacements candidate replacements,
        r.phase ≠ ReplacementPhase.inProgress) →
      (∃ r ∈ otherReplacements candidate replacements,
        candidate.priority < r.priority) →
      ∃ r ∈ otherReplacements candidate replacements,
        candidate.priority < r.priority ∧
        shouldProcess candidate replacements =
          (false, "NodeReplacement \"" ++ r.name ++ "\" has a higher priority"))
    ∧ ((∀ r ∈ otherReplacements candidate replacements,
        r.phase ≠ ReplacementPhase.inProgress) →
      (∀ r ∈ otherReplacements candidate replacements,
        r.priority ≤ candidate.priority) →
      shouldProcess candidate replacements = (true, ""))
    ∧ ((∀ r ∈ replacements, r.name = candidate.name) →
      shouldProcess candidate replacements = (true, "")) := by
  refine ⟨?_, ?_, ?_, ?_⟩
  · intro hex
    cases hf : (otherReplacements candidate replacements).find?
        (fun r => decide (r.phase = ReplacementPhase.inProgress)) with
    | none =>
        exfalso
        obtain ⟨r, hr, hp⟩ := hex
        have := List.find?_eq_none.mp hf r hr
        simp [hp] at this
    | some r =>
        refine ⟨r, List.mem_of_find?_eq_some hf, ?_, ?_⟩
        · have := List.find?_some hf
          simpa using this
        · unfold shouldProcess
          rw [hf]
  · intro hall hex
    have hf0 : (otherReplacements candidate replacements).find?
        (fun r => decide (r.phase = ReplacementPhase.inProgress)) = none := by
      rw [List.find?_eq_none]
      intro r hr
      simp [hall r hr]
    cases hf : (otherReplacements candidate replacements).find?
        (fun r => decide (candidate.priority < r.priority)) with
    | none =>
        exfalso
        obtain ⟨r, hr, hp⟩ := hex
        have := List.find?_eq_none.mp hf r hr
        simp [hp] at this
    | some r =>
        refine ⟨r, List.mem_of_find?_eq_some hf, ?_, ?_⟩
        · have := List.find?_some hf
          simpa using this
        · unfold shouldProcess
          rw [hf0, hf]
  · intro hall hpri
    have hf0 : (otherReplacements candidate replacements).find?
        (fun r => decide (r.phase = ReplacementPhase.inProgress)) = none := by
      rw [List.find?_eq_none]
      intro r hr
      simp [hall r hr]
    have hf1 : (otherReplacements candidate replacements).find?
        (fun r => decide (candidate.priority < r.priority)) = none := by
      rw [List.find?_eq_none]
      intro r hr
      simp [not_lt.mpr (hpri r hr)]
    unfold shouldProcess
    rw [hf0, hf1]
  · intro hall
    have ho : otherReplacements candidate replacements = [] := by
      unfold otherReplacements
      rw [List.filter_eq_nil_iff]
      intro r hr
      simp [hall r hr]
    unfold shouldProcess
    rw [ho]
    rfl

/-- C2 witness: the three scenarios of the handler test — an in-progress
replacement blocks, a higher-priority replacement blocks, a lone
candidate proceeds. -/
theorem shouldProcess_admission_witness :
    (∃ r ∈ otherReplacements exCandidate [exCandidate, exInProgress],
      r.phase = ReplacementPhase.inProgress ∧
      shouldProcess exCandidate [exCandidate, exInProgress] =
        (false, "NodeReplacement \"" ++ r.name ++ "\" is already in-progress")) ∧
    (∃ r ∈ otherReplacements exCandidate [exCandidate, exHighPriority],
      exCandidate.priority < r.priority ∧
      shouldProcess exCandidate [exCandidate, exHighPriority] =
        (false, "NodeReplacement \"" ++ r.name ++ "\" has a higher priority")) ∧
    shouldProcess exCandidate [exCandidate] = (true, "") :=
  ⟨(shouldProcess_admission exCandidate [exCandidate, exInProgress]).1 (by decide),
   (shouldProcess_admission exCandidate [exCandidate, exHighPriority]).2.1
      (by decide) (by decide),
   (shouldProcess_admission exCandidate [exCandidate]).2.2.2 (by decide)⟩

/-- C5 counterexample: the claim asserts that DaemonSet-owned pods are
kept out of the evictable (NodePods) set, with pods p1, p2, p3 and p2
DaemonSet-owned yielding evictable p1, p3 only.  The repository's own
handler test instead expects NodePods to hold all three pod names, pod-2
included, alongside its IgnoredPods entry. -/
theorem processPods_daemonset_counterexample :
    processPods "worker-1" [exPod1, exPod2, exPod3, exPod4] =
      (["pod-1", "pod-2", "pod-3"],
        [{ name := "pod-2", reason := "pod owned by a DaemonSet" }]) ∧
    "pod-2" ∈ (processPods "worker-1" [exPod1, exPod2, exPod3, exPod4]).1 ∧
    (processPods "worker-1" [exPod1, exPod2, exPod3, exPod4]).1 ≠ ["pod-1", "pod-3"] :=
  ⟨by decide, by decide, by decide⟩

/-- C5 amended: the classifier lists the name of every pod bound to the
node — DaemonSet-owned pods included — in the NodePods component, and
records exactly the DaemonSet-owned bound pods in the IgnoredPods
component with the reason "pod owned by a DaemonSet". -/
theorem processPods_classification_amended (node : String) (pods : List Pod) :
    (∀ p ∈ pods, p.nodeName = node → p.name ∈ (processPods node pods).1)
    ∧ (∀ x ∈ (processPods node pods).1,
      ∃ p ∈ pods, p.nodeName = node ∧ p.name = x)
    ∧ (∀ p ∈ pods, p.nodeName = node → isDaemonSetOwned p = true →
      ({ name := p.name, reason := "pod owned by a DaemonSet" } : PodReason) ∈
        (processPods node pods).2)
    ∧ (∀ pr ∈ (processPods node pods).2,
      pr.reason = "pod owned by a DaemonSet" ∧
      ∃ p ∈ pods, p.nodeName = node ∧ isDaemonSetOwned p = true ∧ p.name = pr.name) := by
  refine ⟨?_, ?_, ?_, ?_⟩
  · intro p hp hn
    unfold processPods
    exact List.mem_map_of_mem _ (List.mem_filter.mpr ⟨hp, by simp [hn]⟩)
  · intro x hx
    unfold processPods at hx
    obtain ⟨p, hp, hname⟩ := List.mem_map.mp hx
    have hpf := List.mem_filter.mp hp
    exact ⟨p, hpf.1, by simpa using hpf.2, hname⟩
  · intro p hp hn hd
    unfold processPods
    refine List.mem_map.mpr ⟨p, ?_, rfl⟩
    exact List.mem_filter.mpr ⟨List.mem_filter.mpr ⟨hp, by simp [hn]⟩, hd⟩
  · intro pr hpr
    unfold processPods at hpr
    obtain ⟨p, hp, hname⟩ := List.mem_map.mp hpr
    have hpf := List.mem_filter.mp hp
    have hpb := List.mem_filter.mp hpf.1
    exact ⟨by rw [← hname], p, hpb.1, by simpa using hpb.2, hpf.2, by rw [← hname]⟩

/-- C5 witness: in the handler test scenario the DaemonSet-owned pod-2
is listed in NodePods and recorded in IgnoredPods. -/
theorem processPods_classification_amended_witness :
    "pod-2" ∈ (processPods "worker-1" [exPod1, exPod2, exPod3, exPod4]).1 ∧
    ({ name := "pod-2", reason := "pod owned by a DaemonSet" } : PodReason) ∈
      (processPods "worker-1" [exPod1, exPod2, exPod3, exPod4]).2 :=
  ⟨(processPods_classification_amended "worker-1" [exPod1, exPod2, exPod3, exPod4]).1
      exPod2 (by decide) rfl,
   (processPods_classification_amended "worker-1"
      [exPod1, exPod2, exPod3, exPod4]).2.2.1 exPod2 (by decide) rfl rfl⟩

end Navarchos
